import Mathlib

/-!
Verification of the nitrogen-deposition, nitrogen-use-efficiency and reward
computations of the NUE_PCSE-Gym repository
(pcse_gym/utils/nitrogen_helpers.py and pcse_gym/envs/rewards.py).

Python floats are embedded as exact rationals (reals where the code uses
math/numpy exp); Python ints as integers; a Python function that can raise
(assert failure, KeyError, TypeError) is embedded as an Option-valued
function returning none exactly on the raising inputs.
-/

/-! ## Calendar model

Python datetime.date objects are represented by their year (datetime years
are the naturals 1..9999) and their 1-based day of the year; comparison is
lexicographic and date subtraction goes through the day ordinal, exactly as
for real dates. -/

/-- Embedding of calendar.isleap from the Python standard library. -/
def isleap (y : ℤ) : Bool := y % 4 == 0 && (y % 100 != 0 || y % 400 == 0)

/-- Embedding of get_days_in_year (nitrogen_helpers.py): 365 + calendar.isleap(year). -/
def get_days_in_year (y : ℤ) : ℤ := 365 + (if isleap y then 1 else 0)

/-- A Python datetime.date, as a year and a 1-based day of the year. -/
structure PyDate where
  year : ℕ
  doy : ℕ
deriving DecidableEq, Repr

/-- Comparison of dates (Python date < date), lexicographic. -/
def pyDateLT (a b : PyDate) : Prop :=
  a.year < b.year ∨ (a.year = b.year ∧ a.doy < b.doy)

instance (a b : PyDate) : Decidable (pyDateLT a b) := by
  unfold pyDateLT; infer_instance

/-- Number of days in the years before year n (ordinal of 1 January of year n). -/
def ordDays : ℕ → ℤ
  | 0 => 0
  | n+1 => ordDays n + get_days_in_year n

/-- Day ordinal of a date; (d2 - d1).days in Python is toOrd d2 - toOrd d1. -/
def toOrd (d : PyDate) : ℤ := ordDays d.year + d.doy

/-- The date 31 December of a year (its day of year is the length of the year). -/
def dec31 (y : ℕ) : PyDate := ⟨y, (get_days_in_year (y : ℤ)).toNat⟩

/-- The date 1 January of a year. -/
def jan1 (y : ℕ) : PyDate := ⟨y, 1⟩

/-! ## Annual deposition and its disaggregation (nitrogen_helpers.py) -/

/-- Embedding of get_deposition_amount: the year argument may be None; the
guard in the source is the chained comparison 1900 < year > 2030, i.e.
1900 < year and year > 2030.  Returns the pair (NH4, NO3). -/
def get_deposition_amount (year : Option ℤ) : ℚ × ℚ :=
  match year with
  | none => (9, 3)
  | some y =>
    if 1900 < y ∧ 2030 < y then (9, 3)
    else (697 - 0.339 * (y : ℚ), 538.868 - 0.264 * (y : ℚ))

/-- Embedding of get_disaggregated_deposition: none models the AssertionError
raised when start_date < end_date fails (in the call itself or in one of its
two recursive calls). -/
def get_disaggregated_deposition (year : ℤ) (start_date end_date : PyDate) :
    Option (ℚ × ℚ) :=
  if ¬ pyDateLT start_date end_date then none
  else if start_date.year ≠ end_date.year then
    match get_disaggregated_deposition start_date.year start_date (dec31 start_date.year),
          get_disaggregated_deposition end_date.year (jan1 end_date.year) end_date with
    | some p, some q => some (p.1 + q.1, p.2 + q.2)
    | _, _ => none
  else
    let date_range : ℤ := toOrd end_date - toOrd start_date
    let full := get_deposition_amount (some year)
    let daily_nh4 : ℚ := full.1 / (get_days_in_year year : ℚ)
    let daily_no3 : ℚ := full.2 / (get_days_in_year year : ℚ)
    some (daily_nh4 * date_range, daily_no3 * date_range)
termination_by (if start_date.year = end_date.year then 0 else 1)
decreasing_by
  all_goals simp_all [dec31, jan1]

/-! ## PCSE output getters (nitrogen_helpers.py)

A PCSE output is a list of daily records; only the two deposition keys of the
last record matter here, each possibly missing (a missing key or an empty
output list raises in Python, embedded as none). -/

/-- Unit constant m2_to_ha = 1e-4 from nitrogen_helpers.py. -/
def m2_to_ha : ℚ := 1e-4

/-- A PCSE daily output record, restricted to the two deposition variables;
none models a missing dictionary key. -/
structure PcseRecord where
  rnh4depostt : Option ℚ
  rno3depostt : Option ℚ

/-- Embedding of get_nh4_deposition_pcse: output[-1]['RNH4DEPOSTT'] / m2_to_ha. -/
def get_nh4_deposition_pcse (output : List PcseRecord) : Option ℚ :=
  (output.getLast?).bind fun r => r.rnh4depostt.map fun v => v / m2_to_ha

/-- Embedding of get_no3_deposition_pcse: output[-1]['RNO3DEPOSTT'] / m2_to_ha. -/
def get_no3_deposition_pcse (output : List PcseRecord) : Option ℚ :=
  (output.getLast?).bind fun r => r.rno3depostt.map fun v => v / m2_to_ha

/-- Embedding of get_n_deposition_pcse:
(get_no3_deposition_pcse(output) + get_nh4_deposition_pcse(output)) / m2_to_ha. -/
def get_n_deposition_pcse (output : List PcseRecord) : Option ℚ :=
  (get_no3_deposition_pcse output).bind fun a =>
    (get_nh4_deposition_pcse output).map fun b => (a + b) / m2_to_ha

/-! ## Nitrogen input, surplus and use efficiency
(nitrogen_helpers.py and rewards.py) -/

/-- Embedding of input_nue.  The three branches of the source select the
deposition estimate: NL statistics, the PCSE-supplied depositions, or the
disaggregated NL statistics.  none models the AssertionError of the third
branch when year is None and the TypeError of the second branch when only one
of no3_depo/nh4_depo is given (adding None), as well as a failing inner
get_disaggregated_deposition. -/
def input_nue (n_input : ℚ) (year : Option ℤ) (start_d end_d : Option PyDate)
    (n_seed : ℚ) (no3_depo nh4_depo : Option ℚ) : Option ℚ :=
  if (start_d.isNone ∨ end_d.isNone) ∧ (no3_depo.isNone ∨ nh4_depo.isNone) then
    let p := get_deposition_amount year
    some (n_input + n_seed + (p.1 + p.2))
  else if (start_d.isNone ∨ end_d.isNone) ∧ (no3_depo.isSome ∨ nh4_depo.isSome) then
    match nh4_depo, no3_depo with
    | some nh4, some no3 => some (n_input + n_seed + (nh4 + no3))
    | _, _ => none
  else
    match start_d, end_d, year with
    | some s, some e, some y =>
      if y < 2500 then
        (get_disaggregated_deposition y s e).map fun p => n_input + n_seed + (p.1 + p.2)
      else
        let p := get_deposition_amount (some y)
        some (n_input + n_seed + (p.1 + p.2))
    | _, _, _ => none

/-- Embedding of get_surplus_n: input_nue minus the nitrogen in the storage organ. -/
def get_surplus_n (n_input n_so : ℚ) (year : Option ℤ) (start_d end_d : Option PyDate)
    (n_seed : ℚ) (no3_depo nh4_depo : Option ℚ) : Option ℚ :=
  (input_nue n_input year start_d end_d n_seed no3_depo nh4_depo).map fun n_i => n_i - n_so

/-- Embedding of calculate_nue (rewards.py): n_so / input_nue. -/
def calculate_nue (n_input n_so : ℚ) (year : Option ℤ) (start_d end_d : Option PyDate)
    (n_seed : ℚ) (no3_depo nh4_depo : Option ℚ) : Option ℚ :=
  (input_nue n_input year start_d end_d n_seed no3_depo nh4_depo).map fun n_in => n_so / n_in

/-! ## Year-indexed price tables and economics (rewards.py) -/

/-- Embedding of annual_price_wheat_per_ton: the year-keyed dictionary of
wheat prices; none models the KeyError on a missing year. -/
def annual_price_wheat_per_ton (year : ℤ) : Option ℚ :=
  if year = 1989 then some 177.16 else if year = 1990 then some 168.27 else
  if year = 1991 then some 174.05 else if year = 1992 then some 171.61 else
  if year = 1993 then some 148.94 else if year = 1994 then some 135.27 else
  if year = 1995 then some 131.89 else if year = 1996 then some 130.50 else
  if year = 1997 then some 120.84 else if year = 1998 then some 111.39 else
  if year = 1999 then some 111.62 else if year = 2000 then some 116.23 else
  if year = 2001 then some 112.17 else if year = 2002 then some 102.89 else
  if year = 2003 then some 114.73 else if year = 2004 then some 116.95 else
  if year = 2005 then some 96.73 else if year = 2006 then some 117.95 else
  if year = 2007 then some 180.78 else if year = 2008 then some 169.84 else
  if year = 2009 then some 112.23 else if year = 2010 then some 152.00 else
  if year = 2011 then some 197.5 else if year = 2012 then some 219.28 else
  if year = 2013 then some 203.23 else if year = 2014 then some 164.12 else
  if year = 2015 then some 159.43 else if year = 2016 then some 145.17 else
  if year = 2017 then some 154.62 else if year = 2018 then some 176.23 else
  if year = 2019 then some 172.23 else if year = 2020 then some 181.67 else
  if year = 2021 then some 233.84 else if year = 2022 then some 312.56 else
  if year = 2023 then some 227.56 else none

/-- Embedding of annual_price_nitrogen_per_quintal: the year-keyed dictionary
of nitrogen prices; none models the KeyError on a missing year. -/
def annual_price_nitrogen_per_quintal (year : ℤ) : Option ℚ :=
  if year = 1989 then some 11.61 else if year = 1990 then some 11.61 else
  if year = 1991 then some 12.20 else if year = 1992 then some 11.04 else
  if year = 1993 then some 10.07 else if year = 1994 then some 10.24 else
  if year = 1995 then some 12.58 else if year = 1996 then some 13.22 else
  if year = 1997 then some 11.49 else if year = 1998 then some 10.55 else
  if year = 1999 then some 9.48 else if year = 2000 then some 13.09 else
  if year = 2001 then some 15.60 else if year = 2002 then some 14.28 else
  if year = 2003 then some 15.18 else if year = 2004 then some 15.89 else
  if year = 2005 then some 17.11 else if year = 2006 then some 18.85 else
  if year = 2007 then some 19.81 else if year = 2008 then some 33.12 else
  if year = 2009 then some 21.37 else if year = 2010 then some 21.71 else
  if year = 2011 then some 29.39 else if year = 2012 then some 29.38 else
  if year = 2013 then some 27.13 else if year = 2014 then some 27.74 else
  if year = 2015 then some 27.85 else if year = 2016 then some 21.49 else
  if year = 2017 then some 21.37 else if year = 2018 then some 22.90 else
  if year = 2019 then some 24.17 else if year = 2020 then some 20.49 else
  if year = 2021 then some 35.71 else if year = 2022 then some 76.62 else
  if year = 2023 then some 38.14 else none

/-- Embedding of get_wheat_price_in_kgs; the source's default price_per_ton
argument is 157.75 and is passed explicitly here. -/
def get_wheat_price_in_kgs (year : ℤ) (with_year : Bool) (price_per_ton : ℚ) : Option ℚ :=
  if !with_year then some (price_per_ton * 0.001)
  else (annual_price_wheat_per_ton year).map fun p => p * 0.001

/-- Embedding of get_nitrogen_price_in_kgs; the source's default
price_per_quintal argument is 20.928 and is passed explicitly here. -/
def get_nitrogen_price_in_kgs (year : ℤ) (with_year : Bool) (price_per_quintal : ℚ) : Option ℚ :=
  if !with_year then some (price_per_quintal * 0.01)
  else (annual_price_nitrogen_per_quintal year).map fun p => p * 0.01

/-- Embedding of get_fertilizer_price: the action is converted to kg/ha by
multiplying with 10, then priced. -/
def get_fertilizer_price (action : ℚ) (year : ℤ) (with_year : Bool) : Option ℚ :=
  let amount := action * 10
  (get_nitrogen_price_in_kgs year with_year 20.928).map fun price => amount * price

/-! ## Abstract PCSE output processing

The module pcse_gym/utils/process_pcse_output.py is imported by rewards.py
but is not part of the sources considered here. -/

/-- Modelled from the spec: compute_growth_storage_organ of
pcse_gym/utils/process_pcse_output.py is described only as "the storage-organ
growth of the output over the timestep", so it is kept abstract: an arbitrary
function of the simulator output, the timestep and the multiplier.  All
theorems below hold for every such function. -/
structure ProcessPcse (Output : Type) where
  compute_growth_storage_organ : Output → ℤ → ℚ → ℚ

/-- Embedding of calculate_net_profit (rewards.py): growth is converted to a
wheat price, the fertilizer amount to a nitrogen price, the reward is their
difference; the returned pair is (reward, growth). -/
def calculate_net_profit {Output : Type} (P : ProcessPcse Output) (output : Output)
    (amount : ℚ) (year : ℤ) (multiplier : ℚ) (timestep : ℤ) (with_year : Bool) :
    Option (ℚ × ℚ) :=
  let growth := P.compute_growth_storage_organ output timestep multiplier
  (get_wheat_price_in_kgs year with_year 157.75).bind fun wheat_price =>
    (get_fertilizer_price amount year with_year).map fun n_conv_eur =>
      (growth * wheat_price - n_conv_eur, growth)

/-! ## The bookkeeping containers of the Rewards class (rewards.py) -/

/-- State of Rewards.ContainerEND: the construction parameters and the
cumulative bookkeeping fields. -/
structure ContainerEND where
  timestep : ℤ
  costs_nitrogen : ℚ
  cum_growth : ℚ
  cum_amount : ℚ
  cum_positive_reward : ℚ
  cum_cost : ℚ
  cum_misc_cost : ℚ
  cum_leach : ℚ
  actions : ℚ

/-- Embedding of ContainerEND.__init__ (the default costs_nitrogen is 10.0,
passed explicitly here): every cumulative field starts at zero. -/
def ContainerEND.new (timestep : ℤ) (costs_nitrogen : ℚ) : ContainerEND :=
  ⟨timestep, costs_nitrogen, 0, 0, 0, 0, 0, 0, 0⟩

/-- Embedding of ContainerEND.reset: every cumulative field is zeroed. -/
def ContainerEND.reset (c : ContainerEND) : ContainerEND :=
  ⟨c.timestep, c.costs_nitrogen, 0, 0, 0, 0, 0, 0, 0⟩

/-- Embedding of ContainerEND.calculate_amount: actions += action. -/
def ContainerEND.calculate_amount (c : ContainerEND) (action : ℚ) : ContainerEND :=
  { c with actions := c.actions + action }

/-- Embedding of ContainerEND.calculate_cost_cumulative:
cum_amount += amount and cum_cost += amount * costs_nitrogen. -/
def ContainerEND.calculate_cost_cumulative (c : ContainerEND) (amount : ℚ) : ContainerEND :=
  { c with cum_amount := c.cum_amount + amount,
           cum_cost := c.cum_cost + amount * c.costs_nitrogen }

/-- Embedding of ContainerEND.calculate_misc_cumulative_cost: cum_misc_cost += cost. -/
def ContainerEND.calculate_misc_cumulative_cost (c : ContainerEND) (cost : ℚ) : ContainerEND :=
  { c with cum_misc_cost := c.cum_misc_cost + cost }

/-- Embedding of ContainerEND.growth_storage_organ_wo_cost. -/
def ContainerEND.growth_storage_organ_wo_cost {Output : Type} (P : ProcessPcse Output)
    (c : ContainerEND) (output : Output) (multiplier : ℚ) : ℚ :=
  P.compute_growth_storage_organ output c.timestep multiplier

/-- Embedding of ContainerEND.default_winterwheat_reward_wo_cost. -/
def ContainerEND.default_winterwheat_reward_wo_cost {Output : Type} (P : ProcessPcse Output)
    (c : ContainerEND) (output output_baseline : Output) (multiplier : ℚ) : ℚ :=
  P.compute_growth_storage_organ output c.timestep multiplier
    - P.compute_growth_storage_organ output_baseline c.timestep multiplier

/-- Embedding of ContainerEND.calculate_positive_reward_cumulative: the
benefits are the storage-organ growth, relative to the baseline when one is
given (a falsy output_baseline is modelled by none). -/
def ContainerEND.calculate_positive_reward_cumulative {Output : Type} (P : ProcessPcse Output)
    (c : ContainerEND) (output : Output) (output_baseline : Option Output) (multiplier : ℚ) :
    ContainerEND :=
  let benefits :=
    match output_baseline with
    | none => c.growth_storage_organ_wo_cost P output multiplier
    | some ob => c.default_winterwheat_reward_wo_cost P output ob multiplier
  { c with cum_positive_reward := c.cum_positive_reward + benefits }

/-- Embedding of the property ContainerEND.dump_cumulative_cost:
cum_cost + cum_misc_cost. -/
def ContainerEND.dump_cumulative_cost (c : ContainerEND) : ℚ :=
  c.cum_cost + c.cum_misc_cost

/-- One call to one of the four bookkeeping methods of ContainerEND that the
cumulative-cost claim quantifies over, with its arguments. -/
inductive EndOp (Output : Type) where
  | amount (action : ℚ)
  | miscCost (cost : ℚ)
  | posReward (output : Output) (output_baseline : Option Output) (multiplier : ℚ)
  | costCum (amount : ℚ)

/-- Interpretation of one EndOp call on a ContainerEND state. -/
def applyEndOp {Output : Type} (P : ProcessPcse Output) (c : ContainerEND) :
    EndOp Output → ContainerEND
  | .amount a => c.calculate_amount a
  | .miscCost cost => c.calculate_misc_cumulative_cost cost
  | .posReward o ob m => c.calculate_positive_reward_cumulative P o ob m
  | .costCum a => c.calculate_cost_cumulative a

/-- Interpretation of a finite sequence of EndOp calls, first call first. -/
def applyEndOps {Output : Type} (P : ProcessPcse Output) (c : ContainerEND)
    (ops : List (EndOp Output)) : ContainerEND :=
  ops.foldl (applyEndOp P) c

/-! ## The ActionsContainer and the DEF / GRO reward classes (rewards.py) -/

/-- Embedding of ActionsContainer: a running sum of the actions taken. -/
structure ActionsContainer where
  actions : ℚ

/-- Embedding of ActionsContainer.__init__: actions starts at zero. -/
def ActionsContainer.new : ActionsContainer := ⟨0⟩

/-- Embedding of ActionsContainer.calculate_amount: actions += action. -/
def ActionsContainer.calculate_amount (c : ActionsContainer) (action : ℚ) : ActionsContainer :=
  ⟨c.actions + action⟩

/-- The data of Rewards.Rew (shared by the DEF and GRO subclasses): the
timestep and the nitrogen cost factor fixed at construction. -/
structure Rew where
  timestep : ℤ
  costs_nitrogen : ℚ

/-- Embedding of Rewards.DEF.return_reward: relative yield reward.  The
method first mutates obj via calculate_amount; the mutated container is
returned alongside the (reward, growth) pair. -/
def DEF_return_reward {Output : Type} (P : ProcessPcse Output) (self : Rew)
    (output : Output) (amount : ℚ) (output_baseline : Output) (multiplier : ℚ)
    (obj : ActionsContainer) : (ℚ × ℚ) × ActionsContainer :=
  let obj := obj.calculate_amount amount
  let growth := P.compute_growth_storage_organ output self.timestep multiplier
  let growth_baseline := P.compute_growth_storage_organ output_baseline self.timestep multiplier
  let benefits := growth - growth_baseline
  let costs := self.costs_nitrogen * amount
  ((benefits - costs, growth), obj)

/-- Embedding of Rewards.GRO.return_reward: absolute growth reward.  The
output_baseline argument exists in the source (default None) but is unused. -/
def GRO_return_reward {Output : Type} (P : ProcessPcse Output) (self : Rew)
    (output : Output) (amount : ℚ) (_output_baseline : Option Output) (multiplier : ℚ)
    (obj : ActionsContainer) : (ℚ × ℚ) × ActionsContainer :=
  let obj := obj.calculate_amount amount
  let growth := P.compute_growth_storage_organ output self.timestep multiplier
  let costs := self.costs_nitrogen * amount
  ((growth - costs, growth), obj)

/-! ## The piecewise NUE coefficient (rewards.py, ContainerNUE) -/

/-- Embedding of ContainerNUE.nue_condition; np.exp is the real exponential,
so this definition lives on the real numbers.  The source's default bounds
lower_bound = 0.7 and upper_bound = 0.85 are passed explicitly here. -/
noncomputable def nue_condition (b lower_bound upper_bound : ℝ) : ℝ :=
  if b < lower_bound then upper_bound * Real.exp (-10 * (lower_bound - b)) + 0.1
  else if lower_bound ≤ b ∧ b ≤ upper_bound then 1
  else upper_bound * Real.exp (-10 * (b - upper_bound)) + 0.1

/-! ## Theorems -/

/-- C9: get_deposition_amount returns the constant pair (NH4, NO3) = (9, 3)
exactly when year is None or year > 2030 (the source's chained comparison
1900 < year > 2030 means 1900 < year and year > 2030, which for integers is
year > 2030); for every other year, including every year at or before 1900,
it returns the linear formulas (697 - 0.339 * year, 538.868 - 0.264 * year). -/
theorem C9_deposition_fallback :
    get_deposition_amount none = (9, 3)
    ∧ ∀ y : ℤ,
        (2030 < y → get_deposition_amount (some y) = (9, 3))
        ∧ (y ≤ 2030 →
            get_deposition_amount (some y)
              = (697 - 0.339 * (y : ℚ), 538.868 - 0.264 * (y : ℚ)))
        ∧ (get_deposition_amount (some y) = (9, 3) ↔ 2030 < y) := by
  refine ⟨rfl, fun y => ⟨?_, ?_, ?_, ?_⟩⟩
  · intro h
    simp only [get_deposition_amount]
    rw [if_pos ⟨by omega, h⟩]
  · intro h
    simp only [get_deposition_amount]
    rw [if_neg (by omega)]
  · intro heq
    by_contra hle
    push_neg at hle
    simp only [get_deposition_amount] at heq
    rw [if_neg (by omega)] at heq
    have h1 : (697 : ℚ) - 0.339 * (y : ℚ) = 9 := by
      have := congrArg Prod.fst heq
      simpa using this
    have h2 : (339 : ℚ) * (y : ℚ) = 688000 := by linarith
    have h3 : (339 : ℤ) * y = 688000 := by exact_mod_cast h2
    omega
  · intro h
    simp only [get_deposition_amount]
    rw [if_pos ⟨by omega, h⟩]

/-- Witness for C9 at the years 2031 and 1850. -/
theorem C9_deposition_fallback_witness :
    get_deposition_amount (some 2031) = (9, 3)
    ∧ get_deposition_amount (some 1850)
        = (697 - 0.339 * (1850 : ℚ), 538.868 - 0.264 * (1850 : ℚ)) :=
  ⟨(C9_deposition_fallback.2 2031).1 (by norm_num),
   ((C9_deposition_fallback.2 1850).2.1 (by norm_num))⟩

/-- C10: when the last record of the output carries both deposition keys,
each per-compound getter divides its raw field once by m2_to_ha, and the
total getter divides the sum of the two getters by m2_to_ha a second time. -/
theorem C10_total_deposition_double_division :
    ∀ (output : List PcseRecord) (r : PcseRecord) (v3 v4 : ℚ),
      output.getLast? = some r → r.rno3depostt = some v3 → r.rnh4depostt = some v4 →
      get_no3_deposition_pcse output = some (v3 / m2_to_ha)
      ∧ get_nh4_deposition_pcse output = some (v4 / m2_to_ha)
      ∧ get_n_deposition_pcse output = some ((v3 / m2_to_ha + v4 / m2_to_ha) / m2_to_ha) := by
  intro output r v3 v4 hlast h3 h4
  refine ⟨?_, ?_, ?_⟩ <;>
    simp [get_no3_deposition_pcse, get_nh4_deposition_pcse, get_n_deposition_pcse,
      hlast, h3, h4]

/-- Witness for C10 on a one-record output with raw values 2 and 5. -/
theorem C10_total_deposition_double_division_witness :
    get_no3_deposition_pcse [⟨some 5, some 2⟩] = some ((2 : ℚ) / m2_to_ha)
    ∧ get_nh4_deposition_pcse [⟨some 5, some 2⟩] = some ((5 : ℚ) / m2_to_ha)
    ∧ get_n_deposition_pcse [⟨some 5, some 2⟩]
        = some (((2 : ℚ) / m2_to_ha + 5 / m2_to_ha) / m2_to_ha) :=
  C10_total_deposition_double_division [⟨some 5, some 2⟩] ⟨some 5, some 2⟩ 2 5 rfl rfl rfl

/-- Helper: outside 1989..2023 the wheat price table has no entry. -/
lemma annual_price_wheat_per_ton_eq_none (y : ℤ) (h : ¬ (1989 ≤ y ∧ y ≤ 2023)) :
    annual_price_wheat_per_ton y = none := by
  unfold annual_price_wheat_per_ton
  repeat rw [if_neg (by omega)]

/-- Helper: outside 1989..2023 the nitrogen price table has no entry. -/
lemma annual_price_nitrogen_per_quintal_eq_none (y : ℤ) (h : ¬ (1989 ≤ y ∧ y ≤ 2023)) :
    annual_price_nitrogen_per_quintal y = none := by
  unfold annual_price_nitrogen_per_quintal
  repeat rw [if_neg (by omega)]

/-- C6: with with_year = False both kg prices are the constants 0.15775 and
0.20928, independent of the year; with with_year = True each returns its
year-indexed table entry scaled (wheat per-ton price times 0.001, nitrogen
per-quintal price times 0.01); the two tables are defined exactly for the
years 1989 through 2023, and outside that range the with_year = True lookup
raises KeyError (none). -/
theorem C6_price_tables :
    ∀ y : ℤ,
      get_wheat_price_in_kgs y false 157.75 = some 0.15775
      ∧ get_nitrogen_price_in_kgs y false 20.928 = some 0.20928
      ∧ ((annual_price_wheat_per_ton y).isSome ↔ (1989 ≤ y ∧ y ≤ 2023))
      ∧ ((annual_price_nitrogen_per_quintal y).isSome ↔ (1989 ≤ y ∧ y ≤ 2023))
      ∧ (∀ p, annual_price_wheat_per_ton y = some p →
          get_wheat_price_in_kgs y true 157.75 = some (p * 0.001))
      ∧ (∀ p, annual_price_nitrogen_per_quintal y = some p →
          get_nitrogen_price_in_kgs y true 20.928 = some (p * 0.01))
      ∧ (¬ (1989 ≤ y ∧ y ≤ 2023) →
          get_wheat_price_in_kgs y true 157.75 = none
          ∧ get_nitrogen_price_in_kgs y true 20.928 = none) := by
  intro y
  refine ⟨?_, ?_, ⟨?_, ?_⟩, ⟨?_, ?_⟩, ?_, ?_, ?_⟩
  · simp [get_wheat_price_in_kgs]; norm_num
  · simp [get_nitrogen_price_in_kgs]; norm_num
  · intro hsome
    by_contra h
    rw [annual_price_wheat_per_ton_eq_none y h] at hsome
    simp at hsome
  · rintro ⟨h1, h2⟩
    interval_cases y <;> rfl
  · intro hsome
    by_contra h
    rw [annual_price_nitrogen_per_quintal_eq_none y h] at hsome
    simp at hsome
  · rintro ⟨h1, h2⟩
    interval_cases y <;> rfl
  · intro p hp
    simp [get_wheat_price_in_kgs, hp]
  · intro p hp
    simp [get_nitrogen_price_in_kgs, hp]
  · intro h
    constructor
    · simp [get_wheat_price_in_kgs, annual_price_wheat_per_ton_eq_none y h]
    · simp [get_nitrogen_price_in_kgs, annual_price_nitrogen_per_quintal_eq_none y h]

/-- Witness for C6 at the years 2008 (inside the tables) and 1988 (outside). -/
theorem C6_price_tables_witness :
    get_wheat_price_in_kgs 2008 false 157.75 = some 0.15775
    ∧ get_wheat_price_in_kgs 2008 true 157.75 = some ((169.84 : ℚ) * 0.001)
    ∧ get_nitrogen_price_in_kgs 2008 true 20.928 = some ((33.12 : ℚ) * 0.01)
    ∧ get_wheat_price_in_kgs 1988 true 157.75 = none
    ∧ get_nitrogen_price_in_kgs 1988 true 20.928 = none :=
  ⟨(C6_price_tables 2008).1,
   (C6_price_tables 2008).2.2.2.2.1 169.84 (by norm_num [annual_price_wheat_per_ton]),
   (C6_price_tables 2008).2.2.2.2.2.1 33.12 (by norm_num [annual_price_nitrogen_per_quintal]),
   ((C6_price_tables 1988).2.2.2.2.2.2 (by norm_num)).1,
   ((C6_price_tables 1988).2.2.2.2.2.2 (by norm_num)).2⟩

/-- C7: with with_year = False, calculate_net_profit returns the pair
(reward, growth) with growth the storage-organ growth of the output over the
timestep and reward = growth * 0.15775 - amount * 10 * 0.20928; the action
amount is multiplied by 10 (conversion to kg/ha) inside get_fertilizer_price
before being priced, and the year argument has no effect on the result. -/
theorem C7_net_profit :
    ∀ (Output : Type) (P : ProcessPcse Output) (output : Output)
      (amount : ℚ) (year : ℤ) (multiplier : ℚ) (timestep : ℤ),
      calculate_net_profit P output amount year multiplier timestep false
        = some (P.compute_growth_storage_organ output timestep multiplier * 0.15775
                  - amount * 10 * 0.20928,
                P.compute_growth_storage_organ output timestep multiplier)
      ∧ get_fertilizer_price amount year false = some (amount * 10 * 0.20928) := by
  intro Output P output amount year multiplier timestep
  constructor
  · simp only [calculate_net_profit, get_wheat_price_in_kgs, get_fertilizer_price,
      get_nitrogen_price_in_kgs, Bool.not_false, if_pos, Option.map_some, Option.bind_some]
    norm_num
  · simp only [get_fertilizer_price, get_nitrogen_price_in_kgs, Bool.not_false, if_pos,
      Option.map_some]
    norm_num

/-- C8: with the same timestep and costs_nitrogen, the reward component of
DEF.return_reward equals the reward component of GRO.return_reward minus the
storage-organ growth of the baseline output over the timestep; both return
the same growth component, the storage-organ growth of the output; and each
call adds amount to its container's actions counter via calculate_amount. -/
theorem C8_def_vs_gro :
    ∀ (Output : Type) (P : ProcessPcse Output) (timestep : ℤ) (costs_nitrogen : ℚ)
      (output output_baseline : Output) (amount multiplier : ℚ)
      (objD objG : ActionsContainer),
      (DEF_return_reward P ⟨timestep, costs_nitrogen⟩ output amount output_baseline
          multiplier objD).1.1
        = (GRO_return_reward P ⟨timestep, costs_nitrogen⟩ output amount none
            multiplier objG).1.1
          - P.compute_growth_storage_organ output_baseline timestep multiplier
      ∧ (DEF_return_reward P ⟨timestep, costs_nitrogen⟩ output amount output_baseline
          multiplier objD).1.2
        = P.compute_growth_storage_organ output timestep multiplier
      ∧ (GRO_return_reward P ⟨timestep, costs_nitrogen⟩ output amount none
          multiplier objG).1.2
        = P.compute_growth_storage_organ output timestep multiplier
      ∧ (DEF_return_reward P ⟨timestep, costs_nitrogen⟩ output amount output_baseline
          multiplier objD).2.actions = objD.actions + amount
      ∧ (GRO_return_reward P ⟨timestep, costs_nitrogen⟩ output amount none
          multiplier objG).2.actions = objG.actions + amount := by
  intro Output P timestep costs_nitrogen output output_baseline amount multiplier objD objG
  refine ⟨?_, rfl, rfl, rfl, rfl⟩
  simp only [DEF_return_reward, GRO_return_reward]
  ring

/-- C3: get_surplus_n is input_nue minus n_so, for every common choice of
the optional parameters; and whenever input_nue is defined and nonzero,
get_surplus_n equals input_nue * (1 - calculate_nue). -/
theorem C3_surplus_nue_link :
    ∀ (n_input n_so : ℚ) (year : Option ℤ) (start_d end_d : Option PyDate)
      (n_seed : ℚ) (no3_depo nh4_depo : Option ℚ),
      get_surplus_n n_input n_so year start_d end_d n_seed no3_depo nh4_depo
        = (input_nue n_input year start_d end_d n_seed no3_depo nh4_depo).map
            (fun n_i => n_i - n_so)
      ∧ ∀ v : ℚ, input_nue n_input year start_d end_d n_seed no3_depo nh4_depo = some v →
          v ≠ 0 →
          calculate_nue n_input n_so year start_d end_d n_seed no3_depo nh4_depo
            = some (n_so / v)
          ∧ get_surplus_n n_input n_so year start_d end_d n_seed no3_depo nh4_depo
            = some (v * (1 - n_so / v)) := by
  intro n_input n_so year start_d end_d n_seed no3_depo nh4_depo
  refine ⟨rfl, fun v hv hne => ⟨?_, ?_⟩⟩
  · simp [calculate_nue, hv]
  · simp only [get_surplus_n, hv, Option.map_some, Option.some.injEq]
    field_simp

/-- Witness for C3 with n_input = 50, n_so = 20 and all optional parameters
at their defaults, where input_nue = 50 + 3.5 + (9 + 3) = 65.5. -/
theorem C3_surplus_nue_link_witness :
    calculate_nue 50 20 none none none 3.5 none none = some ((20 : ℚ) / 65.5)
    ∧ get_surplus_n 50 20 none none none 3.5 none none
        = some ((65.5 : ℚ) * (1 - 20 / 65.5)) :=
  (C3_surplus_nue_link 50 20 none none none 3.5 none none).2 65.5
    (by norm_num [input_nue, get_deposition_amount]) (by norm_num)

/-- Helper: the cumulative-cost invariant cum_cost = costs_nitrogen * cum_amount
is preserved by each of the four bookkeeping calls. -/
lemma applyEndOp_cost_invariant {Output : Type} (P : ProcessPcse Output)
    (c : ContainerEND) (op : EndOp Output)
    (h : c.cum_cost = c.costs_nitrogen * c.cum_amount) :
    (applyEndOp P c op).cum_cost
      = (applyEndOp P c op).costs_nitrogen * (applyEndOp P c op).cum_amount := by
  cases op with
  | amount a => simpa [applyEndOp, ContainerEND.calculate_amount] using h
  | miscCost cost => simpa [applyEndOp, ContainerEND.calculate_misc_cumulative_cost] using h
  | posReward o ob m =>
    simpa [applyEndOp, ContainerEND.calculate_positive_reward_cumulative] using h
  | costCum a =>
    simp only [applyEndOp, ContainerEND.calculate_cost_cumulative, h]
    ring

/-- Helper: the four bookkeeping calls never change costs_nitrogen. -/
lemma applyEndOp_costs_nitrogen {Output : Type} (P : ProcessPcse Output)
    (c : ContainerEND) (op : EndOp Output) :
    (applyEndOp P c op).costs_nitrogen = c.costs_nitrogen := by
  cases op with
  | amount a => rfl
  | miscCost cost => rfl
  | posReward o ob m => rfl
  | costCum a => rfl

/-- Helper: the cumulative-cost invariant is preserved by every finite
sequence of bookkeeping calls. -/
lemma applyEndOps_cost_invariant {Output : Type} (P : ProcessPcse Output)
    (ops : List (EndOp Output)) :
    ∀ c : ContainerEND, c.cum_cost = c.costs_nitrogen * c.cum_amount →
      (applyEndOps P c ops).cum_cost
        = (applyEndOps P c ops).costs_nitrogen * (applyEndOps P c ops).cum_amount := by
  induction ops with
  | nil => intro c h; simpa [applyEndOps] using h
  | cons op ops ih =>
    intro c h
    simpa [applyEndOps] using ih (applyEndOp P c op) (applyEndOp_cost_invariant P c op h)

/-- C1: starting from a freshly constructed or freshly reset ContainerEND,
after any finite sequence of calls to calculate_amount,
calculate_misc_cumulative_cost, calculate_positive_reward_cumulative and
calculate_cost_cumulative, in any order with any arguments, cum_cost equals
costs_nitrogen times cum_amount; each call to calculate_cost_cumulative adds
exactly amount to cum_amount and amount * costs_nitrogen to cum_cost; and
dump_cumulative_cost returns cum_cost + cum_misc_cost. -/
theorem C1_container_end_cost_invariant :
    ∀ (Output : Type) (P : ProcessPcse Output) (timestep : ℤ) (costs_nitrogen : ℚ)
      (c0 : ContainerEND) (ops : List (EndOp Output)) (c : ContainerEND) (amount : ℚ),
      (applyEndOps P (ContainerEND.new timestep costs_nitrogen) ops).cum_cost
        = costs_nitrogen
            * (applyEndOps P (ContainerEND.new timestep costs_nitrogen) ops).cum_amount
      ∧ (applyEndOps P c0.reset ops).cum_cost
        = c0.costs_nitrogen * (applyEndOps P c0.reset ops).cum_amount
      ∧ (c.calculate_cost_cumulative amount).cum_amount = c.cum_amount + amount
      ∧ (c.calculate_cost_cumulative amount).cum_cost
        = c.cum_cost + amount * c.costs_nitrogen
      ∧ c.dump_cumulative_cost = c.cum_cost + c.cum_misc_cost := by
  intro Output P timestep costs_nitrogen c0 ops c amount
  have hpreserve : ∀ ops' : List (EndOp Output), ∀ d : ContainerEND,
      (applyEndOps P d ops').costs_nitrogen = d.costs_nitrogen := by
    intro ops'
    induction ops' with
    | nil => intro d; rfl
    | cons op ops' ih =>
      intro d
      simpa [applyEndOps, applyEndOp_costs_nitrogen] using ih (applyEndOp P d op)
  refine ⟨?_, ?_, rfl, rfl, rfl⟩
  · have h := applyEndOps_cost_invariant P ops (ContainerEND.new timestep costs_nitrogen)
      (by simp [ContainerEND.new])
    rwa [hpreserve ops (ContainerEND.new timestep costs_nitrogen)] at h
  · have h := applyEndOps_cost_invariant P ops c0.reset (by simp [ContainerEND.reset])
    rwa [hpreserve ops c0.reset] at h

/-- Helper: on two dates of the same year the disaggregation multiplies each
annual amount by the day difference over the length of the year. -/
lemma disagg_same_year (year : ℤ) (s e : PyDate)
    (hy : s.year = e.year) (hlt : pyDateLT s e) :
    get_disaggregated_deposition year s e
      = some ((get_deposition_amount (some year)).1 / (get_days_in_year year : ℚ)
                * ((e.doy : ℚ) - (s.doy : ℚ)),
              (get_deposition_amount (some year)).2 / (get_days_in_year year : ℚ)
                * ((e.doy : ℚ) - (s.doy : ℚ))) := by
  rw [get_disaggregated_deposition]
  rw [if_neg (not_not_intro hlt), if_neg (not_not_intro hy)]
  have hcast : ((toOrd e - toOrd s : ℤ) : ℚ) = (e.doy : ℚ) - (s.doy : ℚ) := by
    simp [toOrd, hy]
  simp only [hcast]

/-- Helper: the day difference between two same-year dates, seen through the
ordinal, is the difference of their days of the year. -/
lemma toOrd_sub_same_year (y : ℕ) (a b : ℕ) :
    toOrd ⟨y, a⟩ - toOrd ⟨y, b⟩ = (a : ℤ) - (b : ℤ) := by
  simp [toOrd]

/-- Helper: every year has at least 365 days. -/
lemma get_days_in_year_ge (y : ℤ) : 365 ≤ get_days_in_year y := by
  unfold get_days_in_year
  split <;> omega

/-- C4 counterexample: for start_date = 31 December 2000 and
end_date = 1 March 2001 (day 60 of 2001), which lie in different years with
start_date < end_date, the claimed componentwise sum does not happen: the
inner recursive call has an empty range and its assertion start < end fails,
so the whole call raises (none) instead of returning a pair. -/
theorem C4_counterexample :
    get_disaggregated_deposition 2000 ⟨2000, 366⟩ ⟨2001, 60⟩ = none := by
  have ha : ¬¬ pyDateLT (⟨2000, 366⟩ : PyDate) ⟨2001, 60⟩ := by decide
  have hb : (⟨2000, 366⟩ : PyDate).year ≠ (⟨2001, 60⟩ : PyDate).year := by decide
  rw [get_disaggregated_deposition, if_neg ha, if_pos hb]
  have hsub : get_disaggregated_deposition 2000 ⟨2000, 366⟩ (dec31 2000) = none := by
    have hc : ¬ pyDateLT (⟨2000, 366⟩ : PyDate) (dec31 2000) := by decide
    rw [get_disaggregated_deposition, if_pos hc]
  show (match get_disaggregated_deposition 2000 ⟨2000, 366⟩ (dec31 2000),
      get_disaggregated_deposition 2001 (jan1 2001) ⟨2001, 60⟩ with
    | some p, some q => some (p.1 + q.1, p.2 + q.2)
    | _, _ => none) = none
  rw [hsub]

/-- C4 (amended): for two dates in the same calendar year y with
start_date < end_date, get_disaggregated_deposition(y, start_date, end_date)
returns the annual pair get_deposition_amount(y) componentwise multiplied by
(end_date - start_date).days / (365 + isleap(y)); for start_date and end_date
in different years with start_date < end_date, start_date strictly before
31 December of its year and end_date strictly after 1 January of its year,
it returns the componentwise sum of the disaggregation of
[start_date, 31 December of start_date.year] computed for start_date.year and
the disaggregation of [1 January of end_date.year, end_date] computed for
end_date.year. -/
theorem C4_disaggregation_steps :
    ∀ (y : ℕ) (year : ℤ) (s e : PyDate),
      (s.year = y → e.year = y → pyDateLT s e →
        get_disaggregated_deposition y s e
          = some ((get_deposition_amount (some (y : ℤ))).1
                    * (((toOrd e - toOrd s : ℤ) : ℚ)
                        / (365 + if isleap (y : ℤ) then 1 else 0)),
                  (get_deposition_amount (some (y : ℤ))).2
                    * (((toOrd e - toOrd s : ℤ) : ℚ)
                        / (365 + if isleap (y : ℤ) then 1 else 0))))
      ∧ (s.year ≠ e.year → pyDateLT s e →
          s.doy < (get_days_in_year s.year).toNat → 1 < e.doy →
          ∃ p q,
            get_disaggregated_deposition s.year s (dec31 s.year) = some p
            ∧ get_disaggregated_deposition e.year (jan1 e.year) e = some q
            ∧ get_disaggregated_deposition year s e = some (p.1 + q.1, p.2 + q.2)) := by
  intro y year s e
  constructor
  · intro hs he hlt
    rw [disagg_same_year (y : ℤ) s e (hs.trans he.symm) hlt]
    have hcast : ((toOrd e - toOrd s : ℤ) : ℚ) = (e.doy : ℚ) - (s.doy : ℚ) := by
      simp [toOrd, hs, he]
    rw [hcast]
    have hdays : ((get_days_in_year (y : ℤ) : ℤ) : ℚ)
        = 365 + if isleap (y : ℤ) then 1 else 0 := by
      unfold get_days_in_year
      split <;> norm_num
    rw [hdays]
    refine congrArg some ?_
    rw [Prod.ext_iff]
    exact ⟨by ring, by ring⟩
  · intro hy hlt hsd hed
    have hlt1 : pyDateLT s (dec31 s.year) := Or.inr ⟨rfl, by simpa [dec31] using hsd⟩
    have hlt2 : pyDateLT (jan1 e.year) e := Or.inr ⟨rfl, by simpa [jan1] using hed⟩
    have h1 := disagg_same_year (s.year : ℤ) s (dec31 s.year) rfl hlt1
    have h2 := disagg_same_year (e.year : ℤ) (jan1 e.year) e rfl hlt2
    refine ⟨_, _, h1, h2, ?_⟩
    rw [get_disaggregated_deposition]
    rw [if_neg (not_not_intro hlt), if_pos hy, h1, h2]

/-- Witness for C4: the same-year part at 1 January to 1 February 2002 and
the cross-year part at day 200 of 2000 to day 50 of 2001. -/
theorem C4_disaggregation_steps_witness :
    get_disaggregated_deposition 2002 ⟨2002, 1⟩ ⟨2002, 32⟩
      = some ((get_deposition_amount (some (2002 : ℤ))).1
                * (((toOrd ⟨2002, 32⟩ - toOrd ⟨2002, 1⟩ : ℤ) : ℚ)
                    / (365 + if isleap (2002 : ℤ) then 1 else 0)),
              (get_deposition_amount (some (2002 : ℤ))).2
                * (((toOrd ⟨2002, 32⟩ - toOrd ⟨2002, 1⟩ : ℤ) : ℚ)
                    / (365 + if isleap (2002 : ℤ) then 1 else 0)))
    ∧ ∃ p q,
        get_disaggregated_deposition 2000 ⟨2000, 200⟩ (dec31 2000) = some p
        ∧ get_disaggregated_deposition 2001 (jan1 2001) ⟨2001, 50⟩ = some q
        ∧ get_disaggregated_deposition 1999 ⟨2000, 200⟩ ⟨2001, 50⟩
            = some (p.1 + q.1, p.2 + q.2) :=
  ⟨(C4_disaggregation_steps 2002 2002 ⟨2002, 1⟩ ⟨2002, 32⟩).1 rfl rfl
      (Or.inr ⟨rfl, by norm_num⟩),
   (C4_disaggregation_steps 2000 1999 ⟨2000, 200⟩ ⟨2001, 50⟩).2
      (by norm_num) (Or.inl (by norm_num))
      (by norm_num [get_days_in_year, isleap]) (by norm_num)⟩

/-- C5 counterexample: for the year 2002, disaggregating the whole year
1 January 2002 .. 31 December 2002 does not recover the annual amount: the
Python day difference of the two dates is 364, one day short of the length
of the year, so each component is scaled by 364/365. -/
theorem C5_counterexample :
    get_disaggregated_deposition 2002 (jan1 2002) (dec31 2002)
      ≠ some (get_deposition_amount (some 2002)) := by
  rw [disagg_same_year 2002 (jan1 2002) (dec31 2002) rfl
    (Or.inr ⟨rfl, by norm_num [jan1, dec31, get_days_in_year, isleap]⟩)]
  intro h
  rw [Option.some.injEq, Prod.ext_iff] at h
  have h1 := h.1
  have hd : (dec31 2002).doy = 365 := by rfl
  have hj : (jan1 2002).doy = 1 := rfl
  rw [hd, hj] at h1
  norm_num [get_days_in_year, get_deposition_amount, isleap] at h1

/-- C5 (amended): for every year y, disaggregating the whole calendar year
1 January of y .. 31 December of y yields the annual amount
get_deposition_amount(y) componentwise multiplied by
(days_in_year - 1) / days_in_year, one day short of recovering it. -/
theorem C5_whole_year_disaggregation :
    ∀ y : ℕ,
      get_disaggregated_deposition y (jan1 y) (dec31 y)
        = some ((get_deposition_amount (some (y : ℤ))).1
                  * (((get_days_in_year (y : ℤ) : ℚ) - 1) / (get_days_in_year (y : ℤ) : ℚ)),
                (get_deposition_amount (some (y : ℤ))).2
                  * (((get_days_in_year (y : ℤ) : ℚ) - 1) / (get_days_in_year (y : ℤ) : ℚ))) := by
  intro y
  have hge := get_days_in_year_ge (y : ℤ)
  have hlt : pyDateLT (jan1 y) (dec31 y) := by
    refine Or.inr ⟨rfl, ?_⟩
    simp only [jan1, dec31]
    omega
  rw [disagg_same_year (y : ℤ) (jan1 y) (dec31 y) rfl hlt]
  have hdoy : (((dec31 y).doy : ℚ)) = (get_days_in_year (y : ℤ) : ℚ) := by
    simp only [dec31]
    have : ((get_days_in_year (y : ℤ)).toNat : ℤ) = get_days_in_year (y : ℤ) := by omega
    exact_mod_cast this
  rw [hdoy]
  simp only [jan1]
  refine congrArg some ?_
  rw [Prod.ext_iff]
  constructor <;> push_cast <;> ring

/-- C2: with the default bounds 0.7 and 0.85, nue_condition returns 1 on the
interval [0.7, 0.85], the decaying exponential 0.85 * exp(-10 * (0.7 - b)) + 0.1
below it and 0.85 * exp(-10 * (b - 0.85)) + 0.1 above it; outside the interval
the value lies strictly between 0.1 and 0.95, so the function is everywhere at
most 1 and attains 1 exactly on the interval. -/
theorem C2_nue_condition_piecewise :
    ∀ b : ℝ,
      ((0.7 ≤ b ∧ b ≤ 0.85) → nue_condition b 0.7 0.85 = 1)
      ∧ (b < 0.7 →
          nue_condition b 0.7 0.85 = 0.85 * Real.exp (-10 * (0.7 - b)) + 0.1)
      ∧ (0.85 < b →
          nue_condition b 0.7 0.85 = 0.85 * Real.exp (-10 * (b - 0.85)) + 0.1)
      ∧ (¬ (0.7 ≤ b ∧ b ≤ 0.85) →
          0.1 < nue_condition b 0.7 0.85 ∧ nue_condition b 0.7 0.85 < 0.95)
      ∧ nue_condition b 0.7 0.85 ≤ 1
      ∧ (nue_condition b 0.7 0.85 = 1 ↔ (0.7 ≤ b ∧ b ≤ 0.85)) := by
  intro b
  have hin : (0.7 ≤ b ∧ b ≤ 0.85) → nue_condition b 0.7 0.85 = 1 := by
    intro h
    unfold nue_condition
    rw [if_neg (not_lt.mpr h.1), if_pos h]
  have hlo : b < 0.7 →
      nue_condition b 0.7 0.85 = 0.85 * Real.exp (-10 * (0.7 - b)) + 0.1 := by
    intro h
    unfold nue_condition
    rw [if_pos h]
  have hhi : 0.85 < b →
      nue_condition b 0.7 0.85 = 0.85 * Real.exp (-10 * (b - 0.85)) + 0.1 := by
    intro h
    unfold nue_condition
    rw [if_neg (by linarith), if_neg (by intro hc; linarith [hc.2])]
  have hout : ¬ (0.7 ≤ b ∧ b ≤ 0.85) →
      0.1 < nue_condition b 0.7 0.85 ∧ nue_condition b 0.7 0.85 < 0.95 := by
    intro h
    rcases lt_or_le b 0.7 with hb | hb
    · rw [hlo hb]
      have hx : (-10 : ℝ) * (0.7 - b) < 0 := by nlinarith
      have h1 := Real.exp_pos ((-10 : ℝ) * (0.7 - b))
      have h2 := Real.exp_lt_one_iff.mpr hx
      constructor <;> nlinarith
    · have hb2 : 0.85 < b := by
        rcases lt_or_le 0.85 b with hx | hx
        · exact hx
        · exact absurd ⟨hb, hx⟩ h
      rw [hhi hb2]
      have hx : (-10 : ℝ) * (b - 0.85) < 0 := by nlinarith
      have h1 := Real.exp_pos ((-10 : ℝ) * (b - 0.85))
      have h2 := Real.exp_lt_one_iff.mpr hx
      constructor <;> nlinarith
  refine ⟨hin, hlo, hhi, hout, ?_, ?_, hin⟩
  · by_cases h : 0.7 ≤ b ∧ b ≤ 0.85
    · rw [hin h]
    · linarith [(hout h).2]
  · intro h1
    by_contra h
    have h2 := (hout h).2
    rw [h1] at h2
    linarith

/-- Witness for C2 at b = 0.75 (inside the interval), b = 0 (below it) and
b = 1 (above it). -/
theorem C2_nue_condition_piecewise_witness :
    nue_condition 0.75 0.7 0.85 = 1
    ∧ nue_condition 0 0.7 0.85 = 0.85 * Real.exp (-10 * (0.7 - 0)) + 0.1
    ∧ nue_condition 1 0.7 0.85 = 0.85 * Real.exp (-10 * (1 - 0.85)) + 0.1
    ∧ 0.1 < nue_condition 0 0.7 0.85 ∧ nue_condition 0 0.7 0.85 < 0.95 :=
  ⟨(C2_nue_condition_piecewise 0.75).1 (by norm_num),
   (C2_nue_condition_piecewise 0).2.1 (by norm_num),
   (C2_nue_condition_piecewise 1).2.2.1 (by norm_num),
   ((C2_nue_condition_piecewise 0).2.2.2.1 (by norm_num)).1,
   ((C2_nue_condition_piecewise 0).2.2.2.1 (by norm_num)).2⟩
